import Mathlib

set_option maxRecDepth 8000

/-!
Verification development for the Argus OSINT research agent core.

The Python source under `src/` is shallowly embedded: each LangGraph node
becomes a pure Lean function from the research state (plus explicit oracle
arguments standing for nondeterministic collaborators — model delegates,
tool-use transcripts, database write outcomes) to a partial-state patch.
The driver merge protocol of `src/agent/state.py` becomes `applyPatch`,
and the run semantics become the step relation `Step`.

Environment-only data (wall-clock timestamps, token counts, dollar costs,
floating-point confidence scores) is not modelled: it never influences
control flow in the embedded code paths.
-/

namespace Argus

/-- One extracted-fact dict as produced by `submit_findings`. Only the
"fact" key is read by control logic (`f.get("fact")` in the verifier
fallback paths); `none` models a dict without the key. -/
structure Fact where
  fact : Option String
deriving DecidableEq

/-- One entity dict from `submit_findings` args. `name` and `etype` model
`entity.get("name", "")` and `entity.get("type", "")`; the attributes
payload does not affect control flow and is not modelled. -/
structure Entity where
  name : String
  etype : String
deriving DecidableEq

/-- One relationship dict from `submit_findings` args; a `none`
relationship type models a dict without the "relationship_type" key
(read via `rel.get("relationship_type", "ASSOCIATED_WITH")`). -/
structure Rel where
  source_entity : String
  target_entity : String
  relationship_type : Option String
deriving DecidableEq

/-- One contradiction dict from `submit_verification` args. -/
structure Contra where
  claim_a : String
  claim_b : String
deriving DecidableEq

/-- One entry of `search_queries_executed`
(see `search_and_analyze_node`, the `executed` list). -/
structure ExecutedQuery where
  query : String
  results_count : Nat
deriving DecidableEq

/-- One phase descriptor of the research plan (`ResearchPhase` in
`models/schemas.py`); query templates and priority are not read by the
embedded control flow. -/
structure PhaseDescriptor where
  phase_number : Nat
  name : String
  description : String
deriving DecidableEq

/-- One risk-flag dict (`RiskFlag.model_dump()` in `models/schemas.py`). -/
structure RiskFlag where
  flag : String
  category : String
  severity : String
deriving DecidableEq

/-- Audit-log entry (`AuditEntry` in `models/schemas.py`), projected to
the fields the claims mention; timestamp, model, duration and usage
numbers are environment data. -/
structure AuditEntry where
  node : String
  action : String
  output_summary : String
deriving DecidableEq

/-- A raised Python exception: the class name and the message. -/
structure PyExc where
  className : String
  message : String
deriving DecidableEq

/-- The research state (`ResearchState` TypedDict in `src/agent/state.py`),
with every field the embedded nodes read or write. List-valued fields
marked with an append reducer in the source are merged by `applyPatch`
accordingly; `urls_visited` is a set modelled as a duplicate-free list. -/
structure RState where
  research_id : String
  target_name : String
  target_context : String
  research_objectives : List String
  current_agent : String
  next_action : String
  supervisor_instructions : String
  research_plan : List PhaseDescriptor
  current_phase : Nat
  max_phases : Nat
  phase_complete : Bool
  pending_queries : List String
  current_phase_searched : Bool
  current_phase_verified : Bool
  current_phase_risk_assessed : Bool
  facts_verified_count : Nat
  risk_assessed_facts_count : Nat
  search_queries_executed : List ExecutedQuery
  urls_visited : List String
  extracted_facts : List Fact
  entities : List Entity
  relationships : List Rel
  contradictions : List Contra
  verified_facts : List Fact
  unverified_claims : List String
  risk_flags : List RiskFlag
  graph_nodes_created : List String
  graph_relationships_created : List String
  final_report : Option String
  iteration_count : Nat
  audit_log : List AuditEntry
deriving DecidableEq

/-- A partial-state patch returned by a node: a key is present
(`some v`) or omitted (`none`). Omission must never be conflated with
"set to empty", so every field is optional. -/
structure Patch where
  current_agent : Option String := none
  next_action : Option String := none
  supervisor_instructions : Option String := none
  research_plan : Option (List PhaseDescriptor) := none
  current_phase : Option Nat := none
  max_phases : Option Nat := none
  phase_complete : Option Bool := none
  pending_queries : Option (List String) := none
  current_phase_searched : Option Bool := none
  current_phase_verified : Option Bool := none
  current_phase_risk_assessed : Option Bool := none
  facts_verified_count : Option Nat := none
  risk_assessed_facts_count : Option Nat := none
  search_queries_executed : Option (List ExecutedQuery) := none
  urls_visited : Option (List String) := none
  extracted_facts : Option (List Fact) := none
  entities : Option (List Entity) := none
  relationships : Option (List Rel) := none
  contradictions : Option (List Contra) := none
  verified_facts : Option (List Fact) := none
  unverified_claims : Option (List String) := none
  risk_flags : Option (List RiskFlag) := none
  graph_nodes_created : Option (List String) := none
  graph_relationships_created : Option (List String) := none
  final_report : Option String := none
  iteration_count : Option Nat := none
  audit_log : Option (List AuditEntry) := none
deriving DecidableEq

/-- Set-union merge for `urls_visited` (`_merge_sets` in
`src/agent/state.py`), on the duplicate-free-list model of a set. -/
def unionUrls (left right : List String) : List String :=
  left ++ right.filter (fun u => u ∉ left)

/-- Driver merge of a patch into the state, per-field: overwrite for
scalar and control fields, append (`_merge_lists`) for accumulator
lists, union (`_merge_sets`) for `urls_visited`, exactly as the
`Annotated` reducers of `src/agent/state.py` declare. -/
def applyPatch (s : RState) (p : Patch) : RState where
  research_id := s.research_id
  target_name := s.target_name
  target_context := s.target_context
  research_objectives := s.research_objectives
  current_agent := p.current_agent.getD s.current_agent
  next_action := p.next_action.getD s.next_action
  supervisor_instructions := p.supervisor_instructions.getD s.supervisor_instructions
  research_plan := p.research_plan.getD s.research_plan
  current_phase := p.current_phase.getD s.current_phase
  max_phases := p.max_phases.getD s.max_phases
  phase_complete := p.phase_complete.getD s.phase_complete
  pending_queries := p.pending_queries.getD s.pending_queries
  current_phase_searched := p.current_phase_searched.getD s.current_phase_searched
  current_phase_verified := p.current_phase_verified.getD s.current_phase_verified
  current_phase_risk_assessed := p.current_phase_risk_assessed.getD s.current_phase_risk_assessed
  facts_verified_count := p.facts_verified_count.getD s.facts_verified_count
  risk_assessed_facts_count := p.risk_assessed_facts_count.getD s.risk_assessed_facts_count
  search_queries_executed := s.search_queries_executed ++ p.search_queries_executed.getD []
  urls_visited := unionUrls s.urls_visited (p.urls_visited.getD [])
  extracted_facts := s.extracted_facts ++ p.extracted_facts.getD []
  entities := s.entities ++ p.entities.getD []
  relationships := s.relationships ++ p.relationships.getD []
  contradictions := s.contradictions ++ p.contradictions.getD []
  verified_facts := s.verified_facts ++ p.verified_facts.getD []
  unverified_claims := s.unverified_claims ++ p.unverified_claims.getD []
  risk_flags := s.risk_flags ++ p.risk_flags.getD []
  graph_nodes_created := s.graph_nodes_created ++ p.graph_nodes_created.getD []
  graph_relationships_created :=
    s.graph_relationships_created ++ p.graph_relationships_created.getD []
  final_report := match p.final_report with
    | some r => some r
    | none => s.final_report
  iteration_count := p.iteration_count.getD s.iteration_count
  audit_log := s.audit_log ++ p.audit_log.getD []

/-- Initial state seeded by the API layer (`initial_state` in
`src/api/v1/research.py`): phase 0, all flags false, cursors zero, all
accumulators empty. The routing keys are absent before the first
supervisor tick; absence is modelled as the empty string, and the graph
always enters at the supervisor. -/
def initState (rid tname tctx : String) (objectives : List String) (maxPhases : Nat) : RState where
  research_id := rid
  target_name := tname
  target_context := tctx
  research_objectives := objectives
  current_agent := ""
  next_action := ""
  supervisor_instructions := ""
  research_plan := []
  current_phase := 0
  max_phases := maxPhases
  phase_complete := false
  pending_queries := []
  current_phase_searched := false
  current_phase_verified := false
  current_phase_risk_assessed := false
  facts_verified_count := 0
  risk_assessed_facts_count := 0
  search_queries_executed := []
  urls_visited := []
  extracted_facts := []
  entities := []
  relationships := []
  contradictions := []
  verified_facts := []
  unverified_claims := []
  risk_flags := []
  graph_nodes_created := []
  graph_relationships_created := []
  final_report := none
  iteration_count := 0
  audit_log := []

/-! ## Delegate invocation gateway (`src/models/model_router.py`) -/

namespace ModelRouter

/-- The message of the exception raised on total exhaustion
(`model_router.py` line 108); a missing last error prints as "None",
matching the Python f-string of `last_error = None`. -/
def exhaustionMessage (task : String) (lastError : Option String) : String :=
  "All models failed for task \x27" ++ task ++ "\x27: " ++ lastError.getD "None"

/-- Loop body of `ModelRouter.invoke`: walk the attempt outcomes of
primary-then-fallbacks in order, returning the first success and
threading `last_error`. Each list entry is the outcome of one model
attempt (`target.ainvoke` together with schema coercion): `.ok` a
result, `.error` the stringified exception of that attempt. -/
def invokeGo {α : Type} (task : String) (lastError : Option String) :
    List (Except String α) → Except PyExc α
  | [] => .error ⟨"RuntimeError", exhaustionMessage task lastError⟩
  | .ok r :: _ => .ok r
  | .error e :: rest => invokeGo task (some e) rest

/-- Embedding of `ModelRouter.invoke`: `attempts` lists the outcome of
each model in `all_models` order (primary first, then the declared
fallback chain). Raising is modelled as returning `.error`. -/
def invoke {α : Type} (task : String) (attempts : List (Except String α)) : Except PyExc α :=
  invokeGo task none attempts

/-- Stringified last error of a list of attempts, for stating the
exhaustion message: the error of the last attempt, if any. -/
def lastErrorOf {α : Type} (attempts : List (Except String α)) : Option String :=
  attempts.foldl (fun acc a => match a with
    | .error e => some e
    | .ok _ => acc) none

/-- Modelled from the spec: "Tries primary first; ... tries the next in
chain, in order, until one succeeds" — the first successful attempt of
the chain, used as the reference point for the gateway refinement
claim. -/
def specFirstSuccess {α : Type} (attempts : List (Except String α)) : Option α :=
  attempts.findSome? Except.toOption

end ModelRouter

/-! ## Supervisor (`src/agent/supervisor.py`) -/

/-- Structured routing decision (`SupervisorDecision` in
`models/schemas.py`). -/
structure SupervisorDecision where
  next_agent : String
  reasoning : String := ""
  instructions_for_agent : String := ""
deriving DecidableEq

/-- What `router.invoke` handed back to the supervisor when it did not
raise: either an object that is an instance of `SupervisorDecision`, or
some other object (the `isinstance` check on line 87 fails). -/
inductive SupInvokeRes where
  | decision (d : SupervisorDecision)
  | other
deriving DecidableEq

/-- Result of one supervisor tick: the returned patch together with the
cooperative-cancellation set (`_cancelled_jobs` in
`src/api/v1/research.py`) after the tick. -/
structure SupResult where
  patch : Patch
  cancelSet : List String
deriving DecidableEq

/-- The `has_plan` value the supervisor feeds its routing prompt
(`bool(state.get("research_plan"))`, supervisor.py line 71). -/
def supervisorHasPlan (s : RState) : Bool :=
  !s.research_plan.isEmpty

/-- Embedding of `supervisor_node`. `cancelSet` is the shared
cancellation set (a Python set of run ids, modelled as a list with
`discard` = filter); `routerOutcome` is what the single `router.invoke`
call would produce if made. The cancellation branch returns before that
call, so its result cannot depend on `routerOutcome`; in the normal
branch a raised gateway exception propagates (there is no try/except
around the call), modelled by `.error`. -/
def supervisor_node (s : RState) (cancelSet : List String)
    (routerOutcome : Except PyExc SupInvokeRes) : Except PyExc SupResult :=
  let iteration := s.iteration_count + 1
  if s.research_id ≠ "" ∧ s.research_id ∈ cancelSet then
    .ok {
      patch := {
        current_agent := some "FINISH"
        next_action := some "FINISH"
        supervisor_instructions := some ""
        iteration_count := some iteration
        audit_log := some [⟨"supervisor", "cancelled", "Job cancelled by user"⟩] }
      cancelSet := cancelSet.filter (fun x => x ≠ s.research_id) }
  else
    match routerOutcome with
    | .error e => .error e
    | .ok r =>
      let decision := match r with
        | .decision d => d
        | .other => { next_agent := "FINISH", reasoning := "Failed to parse decision" }
      let base : Patch := {
        current_agent := some decision.next_agent
        next_action := some decision.next_agent
        supervisor_instructions := some decision.instructions_for_agent
        iteration_count := some iteration
        audit_log := some [⟨"supervisor", "route_decision",
          "Routed to " ++ decision.next_agent ++ ": " ++ decision.reasoning⟩] }
      let patch :=
        if decision.next_agent = "query_refiner" ∧ s.phase_complete then
          { base with
            current_phase := some (s.current_phase + 1)
            phase_complete := some false
            current_phase_searched := some false
            current_phase_verified := some false
            current_phase_risk_assessed := some false }
        else base
      .ok { patch := patch, cancelSet := cancelSet }

/-! ## Planner (`src/agent/nodes/planner.py`) -/

/-- What `router.invoke` returned to the planner: a `ResearchPlan`
instance (its phase list and estimated query total), or some other
object that fails the `isinstance` check on line 52. -/
inductive PlanInvokeRes where
  | plan (phases : List PhaseDescriptor) (total_estimated_queries : Nat)
  | other
deriving DecidableEq

namespace PlannerAgent

/-- Embedding of `PlannerAgent.run` given the delegate outcome (the
call itself is the only suspension point; a raise there would
propagate, but the claims concern the returned-result paths). -/
def run (s : RState) (outcome : PlanInvokeRes) : Patch :=
  let max_phases := s.max_phases
  let planPhases := match outcome with
    | .plan phases _ => phases
    | .other => []
  let totalq := match outcome with
    | .plan _ t => t
    | .other => 0
  let plan_dicts :=
    if planPhases.length > max_phases then planPhases.take max_phases else planPhases
  { research_plan := some plan_dicts
    current_phase := some 1
    phase_complete := some false
    current_phase_searched := some false
    current_phase_verified := some false
    current_phase_risk_assessed := some false
    audit_log := some [⟨"planner", "generate_plan",
      "Generated " ++ toString plan_dicts.length ++ "-phase plan with "
        ++ toString totalq ++ " queries"⟩] }

end PlannerAgent

/-! ## Query refiner (`src/agent/nodes/query_refiner.py`) -/

/-- What `router.invoke` returned to the query refiner: a
`RefinedQueries` instance or some other object. -/
inductive QRInvokeRes where
  | queries (qs : List String)
  | other
deriving DecidableEq

namespace QueryRefinerAgent

/-- Embedding of `QueryRefinerAgent.run`: dedupes the delegate
queries against the already-executed query texts and overwrites
`pending_queries`. -/
def run (s : RState) (outcome : QRInvokeRes) : Patch :=
  let executed := s.search_queries_executed.map (fun q => q.query)
  let refined := match outcome with
    | .queries qs => qs
    | .other => []
  let new_queries := refined.filter (fun q => q ∉ executed)
  { pending_queries := some new_queries
    audit_log := some [⟨"query_refiner", "generate_queries",
      "Generated " ++ toString new_queries.length ++ " new queries for phase "
        ++ toString s.current_phase⟩] }

end QueryRefinerAgent

/-! ## Search and analyze (`src/agent/nodes/search_and_analyze.py`) -/

/-- Batch cap `MAX_QUERIES_PER_BATCH` (line 30). -/
def MAX_QUERIES_PER_BATCH : Nat := 6

/-- One tool call recorded in the ReAct transcript of the
search-and-analyze agent: the tool name plus the args the extraction
reads (`args.get` defaults mirror missing keys). -/
structure SAToolCall where
  name : String
  facts : List Fact := []
  entities : List Entity := []
  relationships : List Rel := []
  url : String := ""
deriving DecidableEq

/-- The tool calls of one transcript message (empty for messages without
tool calls). -/
abbrev SAMessage := List SAToolCall

/-- Accumulator for `_extract_findings`. -/
structure Findings where
  facts : List Fact := []
  entities : List Entity := []
  relationships : List Rel := []
  urls_visited : List String := []
deriving DecidableEq

/-- Per-tool-call step of `_extract_findings`: a `submit_findings` call
overwrites the findings (the last one wins); a `web_scrape` call with a
non-empty url adds it to the visited set. -/
def extractFindingsStep (acc : Findings) (tc : SAToolCall) : Findings :=
  if tc.name = "submit_findings" then
    { acc with facts := tc.facts, entities := tc.entities, relationships := tc.relationships }
  else if tc.name = "web_scrape" ∧ tc.url ≠ "" then
    { acc with urls_visited :=
        if tc.url ∈ acc.urls_visited then acc.urls_visited else acc.urls_visited ++ [tc.url] }
  else acc

/-- Embedding of `_extract_findings`: reads structured findings only
from `submit_findings` tool-call args, never from free text. -/
def extract_findings (messages : List SAMessage) : Findings :=
  messages.foldl (fun acc m => m.foldl extractFindingsStep acc) {}

/-- Embedding of `search_and_analyze_node` given the ReAct transcript
`messages` the agent run produced. With no pending queries it returns
the empty patch; otherwise it processes one batch of at most
`MAX_QUERIES_PER_BATCH` queries and defers the rest. -/
def search_and_analyze_node (s : RState) (messages : List SAMessage) : Patch :=
  let pending := s.pending_queries
  if pending = [] then {}
  else
    let queries_batch := pending.take MAX_QUERIES_PER_BATCH
    let remaining_queries := pending.drop MAX_QUERIES_PER_BATCH
    let f := extract_findings messages
    let urls_visited := unionUrls s.urls_visited f.urls_visited
    let executed := queries_batch.map (fun q => ExecutedQuery.mk q f.facts.length)
    let phase_searched := remaining_queries.length = 0
    { search_queries_executed := some executed
      urls_visited := some urls_visited
      pending_queries := some remaining_queries
      extracted_facts := some f.facts
      entities := some f.entities
      relationships := some f.relationships
      current_phase_searched := some (decide phase_searched)
      audit_log := some [⟨"search_and_analyze", "search_and_extract",
        "Extracted " ++ toString f.facts.length ++ " facts, "
          ++ toString f.entities.length ++ " entities, "
          ++ toString f.relationships.length ++ " relationships"⟩] }

/-! ## Verifier (`src/agent/nodes/verifier.py`) -/

/-- One tool call recorded in the verifier ReAct transcript; for a
`submit_verification` call the three arg lists are read with
`args.get(..., [])` defaults. -/
structure VToolCall where
  name : String
  verified_facts : List Fact := []
  unverified_claims : List String := []
  contradictions : List Contra := []
deriving DecidableEq

/-- The tool calls of one verifier transcript message. -/
abbrev VMessage := List VToolCall

/-- The triple `_extract_verification` returns. -/
structure VOut where
  verified_facts : List Fact := []
  unverified_claims : List String := []
  contradictions : List Contra := []
deriving DecidableEq

/-- Per-tool-call step of `_extract_verification`: the last
`submit_verification` call wins. -/
def extractVerificationStep (acc : VOut) (tc : VToolCall) : VOut :=
  if tc.name = "submit_verification" then
    ⟨tc.verified_facts, tc.unverified_claims, tc.contradictions⟩
  else acc

/-- Embedding of `_extract_verification`. -/
def extract_verification (messages : List VMessage) : VOut :=
  messages.foldl (fun acc m => m.foldl extractVerificationStep acc) {}

/-- Outcome of the main verifier ReAct run: either
`GraphRecursionError` was raised when the hard recursion budget
(`VERIFIER_RECURSION_LIMIT`) was exhausted, or the run finished with a
transcript. -/
inductive VerifierMainOutcome where
  | recursionLimit
  | finished (messages : List VMessage)
deriving DecidableEq

namespace VerifierAgent

/-- Embedding of `VerifierAgent.run`. `main` is the outcome of the main
ReAct invocation (its `GraphRecursionError` is caught); `forced` is the
outcome of the submit-only follow-up round, which is only consulted
when no verification was extracted, and whose own raise is NOT caught
and therefore propagates (`.error`). -/
def run (s : RState) (main : VerifierMainOutcome)
    (forced : Except PyExc (List VMessage)) : Except PyExc Patch :=
  let all_facts := s.extracted_facts
  let already_verified_count := s.facts_verified_count
  let new_facts := all_facts.drop already_verified_count
  if new_facts = [] then
    .ok { current_phase_verified := some true }
  else
    match main with
    | .recursionLimit =>
      .ok {
        verified_facts := some []
        unverified_claims := some (new_facts.map (fun f => f.fact.getD ""))
        contradictions := some []
        facts_verified_count := some (already_verified_count + new_facts.length)
        current_phase_verified := some true
        audit_log := some [⟨"verifier", "active_verification",
          "Stopped at recursion limit; no verification submitted"⟩] }
    | .finished messages =>
      let vo := extract_verification messages
      let afterForce : Except PyExc VOut :=
        if vo.verified_facts = [] ∧ vo.unverified_claims = [] then
          match forced with
          | .error e => .error e
          | .ok messages2 => .ok (extract_verification messages2)
        else .ok vo
      match afterForce with
      | .error e => .error e
      | .ok vo2 =>
        let unverified_claims :=
          if vo2.verified_facts = [] ∧ vo2.unverified_claims = [] then
            new_facts.filterMap (fun f => match f.fact with
              | some t => if t = "" then none else some t
              | none => none)
          else vo2.unverified_claims
        .ok {
          verified_facts := some vo2.verified_facts
          unverified_claims := some unverified_claims
          contradictions := some vo2.contradictions
          facts_verified_count := some (already_verified_count + new_facts.length)
          current_phase_verified := some true
          audit_log := some [⟨"verifier", "active_verification",
            toString vo2.verified_facts.length ++ " verified, "
              ++ toString unverified_claims.length ++ " unverified, "
              ++ toString vo2.contradictions.length ++ " contradictions"⟩] }

end VerifierAgent

/-! ## Risk assessor (`src/agent/nodes/risk_assessor.py`) -/

/-- What `router.invoke` returned to the risk assessor: a
`RiskAssessment` instance (its flag list; the floating-point overall
score is environment data) or some other object. -/
inductive RiskInvokeRes where
  | assessment (risk_flags : List RiskFlag)
  | other
deriving DecidableEq

/-- The delta the risk assessor works on (lines 27-39): new verified
facts since the cursor, falling back to slicing `extracted_facts` by
`facts_verified_count` when the verifier advanced its counter without
populating `verified_facts`. -/
def riskDelta (s : RState) : List Fact :=
  let new_verified := s.verified_facts.drop s.risk_assessed_facts_count
  if new_verified = [] then
    if s.facts_verified_count > s.risk_assessed_facts_count then
      (s.extracted_facts.take s.facts_verified_count).drop s.risk_assessed_facts_count
    else new_verified
  else new_verified

/-- Embedding of `risk_assessor_node`. The single `router.invoke` call
is not wrapped in try/except, so a raised gateway exception propagates
(`.error`); a returned non-`RiskAssessment` object degrades to an empty
assessment. -/
def risk_assessor_node (s : RState) (outcome : Except PyExc RiskInvokeRes) :
    Except PyExc Patch :=
  let already_assessed := s.risk_assessed_facts_count
  let new_verified := riskDelta s
  if new_verified = [] then
    .ok { current_phase_risk_assessed := some true }
  else
    match outcome with
    | .error e => .error e
    | .ok r =>
      let flags := match r with
        | .assessment fs => fs
        | .other => []
      .ok {
        risk_flags := some flags
        risk_assessed_facts_count := some (already_assessed + new_verified.length)
        current_phase_risk_assessed := some true
        audit_log := some [⟨"risk_assessor", "assess_risk",
          "Identified " ++ toString flags.length ++ " new risk flags"⟩] }

/-! ## Graph builder (`src/agent/nodes/graph_builder.py`) -/

/-- Embedding of the Python `str.lower()` used on entity type strings:
maps `Char.toLower` over the characters (the core `String.toLower` is
the same map but is not kernel-reducible). -/
def pyLower (s : String) : String :=
  ⟨s.data.map Char.toLower⟩

/-- Embedding of the Python `str.upper()` used on relationship type
strings. -/
def pyUpper (s : String) : String :=
  ⟨s.data.map Char.toUpper⟩

/-- Keys of `ENTITY_TYPE_TO_QUERY` (lines 26-32). -/
def recognizedEntityTypes : List String :=
  ["person", "organization", "fund", "location", "document"]

/-- Keys of `TYPED_RELATIONSHIP_QUERIES` (`src/graph_db/queries.py`). -/
def typedRelationshipTypes : List String :=
  ["WORKS_AT", "OWNS", "BOARD_MEMBER_OF", "ASSOCIATED_WITH", "LITIGATED",
   "MANAGES", "INVESTED_IN", "LOCATED_IN", "MENTIONED_IN"]

/-- Result of the graph builder: the returned patch plus the emitted
log lines (warnings and errors), which the claims mention. -/
structure GraphBuildResult where
  patch : Patch
  log : List String
deriving DecidableEq

/-- Per-entity body of the first loop of `graph_builder_node`:
unrecognized type → warning, skip; empty name → silent skip; otherwise
attempt the upsert, whose success is given by the database oracle
`entityWriteOk` at this entity index (a failure is logged and the loop
continues). -/
def graphEntityStep (entityWriteOk : Nat → Bool)
    (acc : List String × List String) (ie : Nat × Entity) : List String × List String :=
  let etype := pyLower ie.2.etype
  if etype ∉ recognizedEntityTypes then
    (acc.1, acc.2 ++ ["unknown_entity_type:" ++ etype])
  else if ie.2.name = "" then acc
  else if entityWriteOk ie.1 then
    (acc.1 ++ [etype ++ ":" ++ ie.2.name], acc.2)
  else
    (acc.1, acc.2 ++ ["graph_node_create_failed:" ++ ie.2.name])

/-- Per-relationship body of the second loop of `graph_builder_node`:
missing endpoint names → silent skip; unknown relationship type →
warning then a generic-edge write; the write outcome is given by the
database oracle `relWriteOk` at this relationship index. -/
def graphRelStep (relWriteOk : Nat → Bool)
    (acc : List String × List String) (ir : Nat × Rel) : List String × List String :=
  let from_name := ir.2.source_entity
  let to_name := ir.2.target_entity
  let rel_type := pyUpper (ir.2.relationship_type.getD "ASSOCIATED_WITH")
  if from_name = "" ∨ to_name = "" then acc
  else
    let warn := if rel_type ∈ typedRelationshipTypes then []
      else ["unknown_rel_type_fallback:" ++ rel_type]
    if relWriteOk ir.1 then
      (acc.1 ++ [from_name ++ "-[" ++ rel_type ++ "]->" ++ to_name], acc.2 ++ warn)
    else
      (acc.1, acc.2 ++ warn ++ ["graph_rel_create_failed:" ++ from_name ++ "->" ++ to_name])

/-- Embedding of `graph_builder_node`: iterates all accumulated
entities and relationships, isolating every individual write behind
try/except (the oracles `entityWriteOk`/`relWriteOk` say whether the
i-th write succeeded), and unconditionally declares the phase complete. -/
def graph_builder_node (s : RState) (entityWriteOk relWriteOk : Nat → Bool) :
    GraphBuildResult :=
  let entRes := s.entities.enum.foldl (graphEntityStep entityWriteOk) ([], [])
  let relRes := s.relationships.enum.foldl (graphRelStep relWriteOk) ([], [])
  { patch := {
      graph_nodes_created := some entRes.1
      graph_relationships_created := some relRes.1
      phase_complete := some true
      audit_log := some [⟨"graph_builder", "populate_graph",
        "Created " ++ toString entRes.1.length ++ " nodes, "
          ++ toString relRes.1.length ++ " relationships"⟩] }
    log := entRes.2 ++ relRes.2 }

/-! ## Synthesizer (`src/agent/nodes/synthesizer.py`) -/

/-- Embedding of `SynthesizerAgent.run` given the report text the
delegate produced. -/
def synthesizer_node (s : RState) (report : String) : Patch :=
  { final_report := some report
    audit_log := some [⟨"synthesizer", "generate_report",
      "Generated report with " ++ toString report.length ++ " characters"⟩] }

/-! ## Run semantics -/

/-- One transition of the driver loop: a supervisor tick, or one
specialist node invocation routed by the `next_action` the supervisor
last wrote (`route_from_supervisor` in `src/agent/edges.py`), each
followed by the driver merge. Oracle arguments (delegate outcomes,
transcripts, database write results) are existentially free, modelling
the nondeterministic collaborators. A node whose embedded function can
raise contributes a transition only when it returns a patch. -/
inductive Step : RState → RState → Prop
  | supervisor (s : RState) (cancelSet : List String)
      (outcome : Except PyExc SupInvokeRes) (r : SupResult)
      (h : supervisor_node s cancelSet outcome = .ok r) :
      Step s (applyPatch s r.patch)
  | planner (s : RState) (outcome : PlanInvokeRes)
      (h : s.next_action = "planner") :
      Step s (applyPatch s (PlannerAgent.run s outcome))
  | query_refiner (s : RState) (outcome : QRInvokeRes)
      (h : s.next_action = "query_refiner") :
      Step s (applyPatch s (QueryRefinerAgent.run s outcome))
  | search_and_analyze (s : RState) (messages : List SAMessage)
      (h : s.next_action = "search_and_analyze") :
      Step s (applyPatch s (search_and_analyze_node s messages))
  | verifier (s : RState) (main : VerifierMainOutcome)
      (forced : Except PyExc (List VMessage)) (p : Patch)
      (h : s.next_action = "verifier") (hr : VerifierAgent.run s main forced = .ok p) :
      Step s (applyPatch s p)
  | risk_assessor (s : RState) (outcome : Except PyExc RiskInvokeRes) (p : Patch)
      (h : s.next_action = "risk_assessor") (hr : risk_assessor_node s outcome = .ok p) :
      Step s (applyPatch s p)
  | graph_builder (s : RState) (entityWriteOk relWriteOk : Nat → Bool)
      (h : s.next_action = "graph_builder") :
      Step s (applyPatch s (graph_builder_node s entityWriteOk relWriteOk).patch)
  | synthesizer (s : RState) (report : String)
      (h : s.next_action = "synthesizer") :
      Step s (applyPatch s (synthesizer_node s report))

/-- Reachability of a state from a seed state through driver
transitions. -/
def Reachable (s0 s : RState) : Prop :=
  Relation.ReflTransGen Step s0 s

/-! ## Invariants and concrete instances used by the claims -/

/-- Corrected delta-cursor invariant: the verifier cursor is bounded by
the extracted-fact count, while the risk cursor — because of the
fallback that slices `extracted_facts` by `facts_verified_count` — is
bounded by the larger of the verified-fact count and the verifier
cursor, not by the verified-fact count alone. -/
def CursorInv (s : RState) : Prop :=
  s.facts_verified_count ≤ s.extracted_facts.length ∧
  s.risk_assessed_facts_count ≤ max s.verified_facts.length s.facts_verified_count

/-- State in phase 2 with the phase declared complete, for exercising
the supervisor phase-advance transition. -/
def c1State : RState :=
  { initState "run-c1" "Target" "" [] 5 with current_phase := 2, phase_complete := true }

/-- The supervisor tick result on `c1State` when the delegate routes to
the query refiner. -/
def c1Result : SupResult where
  patch := {
    current_agent := some "query_refiner"
    next_action := some "query_refiner"
    supervisor_instructions := some ""
    current_phase := some 3
    phase_complete := some false
    current_phase_searched := some false
    current_phase_verified := some false
    current_phase_risk_assessed := some false
    iteration_count := some 1
    audit_log := some [⟨"supervisor", "route_decision", "Routed to query_refiner: "⟩] }
  cancelSet := []

/-- Transcript in which the search agent submitted exactly one fact. -/
def c2saMessages : List SAMessage :=
  [[{ name := "submit_findings", facts := [⟨some "F1"⟩] }]]

/-- Seed state with one extracted fact, for the delta-cursor witness. -/
def c2wState : RState :=
  { initState "run-w2" "T" "" [] 1 with extracted_facts := [⟨some "F"⟩] }

/-- The verifier patch on `c2wState` when the recursion budget is
exhausted. -/
def c2wPatch : Patch where
  verified_facts := some []
  unverified_claims := some ["F"]
  contradictions := some []
  facts_verified_count := some 1
  current_phase_verified := some true
  audit_log := some [⟨"verifier", "active_verification",
    "Stopped at recursion limit; no verification submitted"⟩]

/-- Fresh run state for the cancellation claim. -/
def c3State : RState := initState "run-c3" "Target" "" [] 5

/-- Fresh run state for the gateway-raise claim. -/
def c5State : RState := initState "run-c5" "Target" "" [] 3

/-- The exhaustion error the gateway raises when every delegate for the
supervisor task fails. -/
def c5Exc : PyExc :=
  ⟨"RuntimeError", ModelRouter.exhaustionMessage "supervisor" (some "timeout")⟩

/-- State whose extracted facts have all been verified already. -/
def c6State : RState :=
  { initState "run-c6" "Target" "" [] 5 with
    extracted_facts := [⟨some "a"⟩, ⟨some "b"⟩], facts_verified_count := 2 }

/-- State holding one new fact dict that lacks the "fact" key. -/
def c7State : RState :=
  { initState "run-c7" "Target" "" [] 3 with extracted_facts := [⟨none⟩] }

/-- The verifier patch on `c7State` when neither the main run nor the
forced follow-up round records a submission: the fact with missing text
yields no unverified claim. -/
def c7Patch : Patch where
  verified_facts := some []
  unverified_claims := some []
  contradictions := some []
  facts_verified_count := some 1
  current_phase_verified := some true
  audit_log := some [⟨"verifier", "active_verification",
    "0 verified, 0 unverified, 0 contradictions"⟩]

/-- State holding one new fact with a non-empty text. -/
def c7wState : RState :=
  { initState "run-c7w" "Target" "" [] 3 with extracted_facts := [⟨some "claim-x"⟩] }

/-- State with seven pending queries, one more than the batch cap. -/
def c8State : RState :=
  { initState "run-c8" "Target" "" [] 5 with
    pending_queries := ["a", "b", "c", "d", "e", "f", "g"] }

/-- State holding one entity of unrecognized type and one person. -/
def c9State : RState :=
  { initState "run-c9" "Target" "" [] 5 with
    entities := [⟨"Ship1", "spaceship"⟩, ⟨"Alice", "person"⟩] }

/-! # Theorems -/

/-! ## Gateway lemmas -/

theorem invokeGo_ok_iff {α : Type} (task : String) :
    ∀ (attempts : List (Except String α)) (lastErr : Option String) (r : α),
      ModelRouter.invokeGo task lastErr attempts = .ok r ↔
        ModelRouter.specFirstSuccess attempts = some r := by
  intro attempts
  induction attempts with
  | nil =>
    intro lastErr r
    simp [ModelRouter.invokeGo, ModelRouter.specFirstSuccess]
  | cons a rest ih =>
    intro lastErr r
    cases a with
    | ok v =>
      simp [ModelRouter.invokeGo, ModelRouter.specFirstSuccess, List.findSome?, Except.toOption]
    | error e =>
      simpa [ModelRouter.invokeGo, ModelRouter.specFirstSuccess, List.findSome?,
        Except.toOption] using ih (some e) r

theorem invokeGo_exhaust {α : Type} (task : String) :
    ∀ (attempts : List (Except String α)) (lastErr : Option String),
      ModelRouter.specFirstSuccess attempts = none →
      ModelRouter.invokeGo task lastErr attempts =
        .error ⟨"RuntimeError",
          ModelRouter.exhaustionMessage task
            (attempts.foldl (fun acc a => match a with
              | .error e => some e
              | .ok _ => acc) lastErr)⟩ := by
  intro attempts
  induction attempts with
  | nil =>
    intro lastErr _
    simp [ModelRouter.invokeGo]
  | cons a rest ih =>
    intro lastErr hnone
    cases a with
    | ok v =>
      simp [ModelRouter.specFirstSuccess, List.findSome?, Except.toOption] at hnone
    | error e =>
      simp only [ModelRouter.specFirstSuccess, List.findSome?, Except.toOption] at hnone
      simpa [ModelRouter.invokeGo] using ih (some e) hnone

/-! ## C4 — gateway fallback chain and exhaustion error -/

/-- C4 counterexample: with the primary and the single fallback for
task "supervisor" both failing, `ModelRouter.invoke` raises the builtin
`RuntimeError` (model_router.py line 108) — there is no
`AllDelegatesFailedError` class anywhere in the repository — so the
claim that the exhaustion error is the typed `AllDelegatesFailedError`
is false, even though the message does name the task and the last
underlying error. -/
theorem gateway_exhaustion_untyped_c4_counterexample :
    ModelRouter.invoke "supervisor"
        ([.error "timeout", .error "boom"] : List (Except String SupInvokeRes)) =
      .error ⟨"RuntimeError", "All models failed for task \x27supervisor\x27: boom"⟩ ∧
    "RuntimeError" ≠ "AllDelegatesFailedError" :=
  ⟨rfl, by decide⟩

/-- C4 (amended): `invoke` attempts the primary delegate first and then
each fallback in declared chain order and returns the first successful
result; when the primary and every fallback fail it raises a
`RuntimeError` whose message names the task and the last underlying
error, and never returns a null, default, or best-effort partial result
silently. -/
theorem gateway_fallback_chain_c4 {α : Type} (task : String)
    (attempts : List (Except String α)) :
    (∀ r : α, ModelRouter.invoke task attempts = .ok r ↔
      ModelRouter.specFirstSuccess attempts = some r) ∧
    (ModelRouter.specFirstSuccess attempts = none →
      ModelRouter.invoke task attempts =
        .error ⟨"RuntimeError",
          ModelRouter.exhaustionMessage task (ModelRouter.lastErrorOf attempts)⟩) := by
  constructor
  · intro r
    exact invokeGo_ok_iff task attempts none r
  · intro hnone
    exact invokeGo_exhaust task attempts none hnone

/-- C4 witness: concrete exhaustion (one failing attempt) and concrete
first-success. -/
theorem gateway_fallback_chain_c4_witness :
    ModelRouter.invoke "planner" ([.error "t1"] : List (Except String Nat)) =
      .error ⟨"RuntimeError", "All models failed for task \x27planner\x27: t1"⟩ ∧
    ModelRouter.invoke "verifier" ([.ok 7] : List (Except String Nat)) = .ok 7 := by
  constructor
  · exact (gateway_fallback_chain_c4 "planner" [.error "t1"]).2 (by decide)
  · exact ((gateway_fallback_chain_c4 "verifier" [.ok 7]).1 7).mpr (by decide)

/-! ## C5 — a gateway raise crashes the supervisor tick -/

/-- C5 (code bug): when the gateway raises on total fallback
exhaustion, the supervisor propagates the exception instead of
defaulting to FINISH — there is no try/except around the
`router.invoke` call on supervisor.py line 76, so only a returned
unparseable result (the `isinstance` check) degrades to FINISH. -/
theorem supervisor_gateway_raise_propagates_c5 :
    supervisor_node c5State [] (.error c5Exc) = .error c5Exc := rfl

/-! ## C6 — verifier early exit with no new facts -/

/-- C6: when every extracted fact has already been verified, the
verifier returns exactly the patch setting `current_phase_verified`
and nothing else — every other key is omitted, leaving cursor and
accumulators untouched. -/
theorem verifier_empty_delta_minimal_patch_c6 :
    ∀ (s : RState) (main : VerifierMainOutcome) (forced : Except PyExc (List VMessage)),
      s.extracted_facts.length = s.facts_verified_count →
      VerifierAgent.run s main forced = .ok { current_phase_verified := some true } := by
  intro s main forced h
  have hd : s.extracted_facts.drop s.facts_verified_count = [] :=
    List.drop_eq_nil_of_le (le_of_eq h)
  simp [VerifierAgent.run, hd]

/-- C6 witness: a state with two facts, both already verified. -/
theorem verifier_empty_delta_minimal_patch_c6_witness :
    VerifierAgent.run c6State .recursionLimit (.ok []) =
      .ok { current_phase_verified := some true } :=
  verifier_empty_delta_minimal_patch_c6 c6State .recursionLimit (.ok []) rfl

/-! ## C10 — unparseable plan yields an empty, invisible plan -/

/-- C10: when the delegate result cannot be parsed as a `ResearchPlan`,
the planner does not raise and returns a patch with an empty
`research_plan` while still setting `current_phase = 1` and
`phase_complete` and all three per-phase flags to false — and because
the supervisor tests plan existence with `bool(research_plan)`, the
merged state is indistinguishable from one with no plan at all
(`has_plan` is false, exactly as for a fresh initial state). -/
theorem planner_empty_plan_indistinguishable_c10 :
    ∀ s t : RState,
      (PlannerAgent.run s .other).research_plan = some [] ∧
      (PlannerAgent.run s .other).current_phase = some 1 ∧
      (PlannerAgent.run s .other).phase_complete = some false ∧
      (PlannerAgent.run s .other).current_phase_searched = some false ∧
      (PlannerAgent.run s .other).current_phase_verified = some false ∧
      (PlannerAgent.run s .other).current_phase_risk_assessed = some false ∧
      supervisorHasPlan (applyPatch t (PlannerAgent.run s .other)) = false ∧
      supervisorHasPlan (initState t.research_id t.target_name t.target_context
        t.research_objectives t.max_phases) = false := by
  intro s t
  refine ⟨?_, rfl, rfl, rfl, rfl, rfl, ?_, rfl⟩
  · simp [PlannerAgent.run]
  · simp [supervisorHasPlan, applyPatch, PlannerAgent.run]

/-! ## C3 — cooperative cancellation is honored at the tick -/

/-- C3: on any supervisor tick where the cancellation signal holds the
run id (which is non-empty for every run), the supervisor emits FINISH
at that same tick, clears the signal from the set, appends a
"cancelled" audit entry, and the result is independent of the delegate
outcome — no delegate call is consulted. -/
theorem supervisor_cancellation_immediate_c3 :
    ∀ (s : RState) (cancelSet : List String) (o o₂ : Except PyExc SupInvokeRes),
      s.research_id ≠ "" → s.research_id ∈ cancelSet →
      supervisor_node s cancelSet o =
        .ok { patch := { current_agent := some "FINISH", next_action := some "FINISH",
                         supervisor_instructions := some "",
                         iteration_count := some (s.iteration_count + 1),
                         audit_log := some [⟨"supervisor", "cancelled",
                           "Job cancelled by user"⟩] },
              cancelSet := cancelSet.filter (fun x => x ≠ s.research_id) } ∧
      s.research_id ∉ cancelSet.filter (fun x => x ≠ s.research_id) ∧
      supervisor_node s cancelSet o = supervisor_node s cancelSet o₂ := by
  intro s cs o o₂ h1 h2
  have hc : s.research_id ≠ "" ∧ s.research_id ∈ cs := ⟨h1, h2⟩
  refine ⟨?_, ?_, ?_⟩
  · simp [supervisor_node, hc]
  · simp
  · simp [supervisor_node, hc]

/-- C3 witness: run "run-c3" is cancelled; the tick finishes, clears
the set, and two different delegate outcomes give the same result. -/
theorem supervisor_cancellation_immediate_c3_witness :
    supervisor_node c3State ["run-c3"] (.ok (.decision ⟨"verifier", "", ""⟩)) =
      .ok { patch := { current_agent := some "FINISH", next_action := some "FINISH",
                       supervisor_instructions := some "",
                       iteration_count := some 1,
                       audit_log := some [⟨"supervisor", "cancelled",
                         "Job cancelled by user"⟩] },
            cancelSet := [] } ∧
    supervisor_node c3State ["run-c3"] (.ok (.decision ⟨"verifier", "", ""⟩)) =
      supervisor_node c3State ["run-c3"] (.error ⟨"RuntimeError", "x"⟩) := by
  have h := supervisor_cancellation_immediate_c3 c3State ["run-c3"]
    (.ok (.decision ⟨"verifier", "", ""⟩)) (.error ⟨"RuntimeError", "x"⟩)
    (by decide) (by decide)
  exact ⟨h.1, h.2.2⟩

/-! ## C8 — search batch cap, deferral, and the searched flag -/

/-- C8: with a non-empty pending-query list, at most
`MAX_QUERIES_PER_BATCH` queries are executed this round, the queries
beyond the batch are returned as the new `pending_queries` (deferred,
never dropped — batch plus remainder is the original list), and
`current_phase_searched` is set true exactly when no queries remain
after the batch. -/
theorem search_batch_cap_and_deferral_c8 :
    ∀ (s : RState) (messages : List SAMessage),
      s.pending_queries ≠ [] →
      (search_and_analyze_node s messages).search_queries_executed =
        some ((s.pending_queries.take MAX_QUERIES_PER_BATCH).map
          (fun q => ExecutedQuery.mk q (extract_findings messages).facts.length)) ∧
      (s.pending_queries.take MAX_QUERIES_PER_BATCH).length ≤ MAX_QUERIES_PER_BATCH ∧
      (search_and_analyze_node s messages).pending_queries =
        some (s.pending_queries.drop MAX_QUERIES_PER_BATCH) ∧
      s.pending_queries.take MAX_QUERIES_PER_BATCH ++
        s.pending_queries.drop MAX_QUERIES_PER_BATCH = s.pending_queries ∧
      ((search_and_analyze_node s messages).current_phase_searched = some true ↔
        s.pending_queries.drop MAX_QUERIES_PER_BATCH = []) := by
  intro s messages h
  refine ⟨?_, ?_, ?_, ?_, ?_⟩
  · simp [search_and_analyze_node, h]
  · rw [List.length_take]
    exact min_le_left _ _
  · simp [search_and_analyze_node, h]
  · exact List.take_append_drop _ _
  · simp [search_and_analyze_node, h, List.length_eq_zero]
    omega

/-- C8 witness: seven pending queries — six executed, one deferred,
flag not set. -/
theorem search_batch_cap_and_deferral_c8_witness :
    (search_and_analyze_node c8State []).pending_queries = some ["g"] ∧
    (search_and_analyze_node c8State []).search_queries_executed =
      some [⟨"a", 0⟩, ⟨"b", 0⟩, ⟨"c", 0⟩, ⟨"d", 0⟩, ⟨"e", 0⟩, ⟨"f", 0⟩] := by
  have h := search_batch_cap_and_deferral_c8 c8State [] (by decide)
  exact ⟨h.2.2.1, h.1⟩

/-! ## C1 — phase advance is the only flag reset -/

/-- C1: on a supervisor tick that returns a patch, if the routed agent
is the query refiner while the incoming `phase_complete` is true, the
patch advances `current_phase` by one and sets `phase_complete` and the
three per-phase flags to false; on any other tick the patch contains
none of those five keys, so the supervisor never resets per-phase flags
outside the phase-advance transition. -/
theorem supervisor_phase_advance_iff_c1 :
    ∀ (s : RState) (cancelSet : List String) (o : Except PyExc SupInvokeRes) (r : SupResult),
      supervisor_node s cancelSet o = .ok r →
      ((r.patch.next_action = some "query_refiner" ∧ s.phase_complete = true) →
        r.patch.current_phase = some (s.current_phase + 1) ∧
        r.patch.phase_complete = some false ∧
        r.patch.current_phase_searched = some false ∧
        r.patch.current_phase_verified = some false ∧
        r.patch.current_phase_risk_assessed = some false) ∧
      (¬(r.patch.next_action = some "query_refiner" ∧ s.phase_complete = true) →
        r.patch.current_phase = none ∧
        r.patch.phase_complete = none ∧
        r.patch.current_phase_searched = none ∧
        r.patch.current_phase_verified = none ∧
        r.patch.current_phase_risk_assessed = none) := by
  intro s cs o r h
  unfold supervisor_node at h
  by_cases hc : s.research_id ≠ "" ∧ s.research_id ∈ cs
  · rw [if_pos hc] at h
    injection h with h
    subst h
    constructor
    · rintro ⟨hna, -⟩
      simp at hna
    · intro _
      exact ⟨rfl, rfl, rfl, rfl, rfl⟩
  · rw [if_neg hc] at h
    cases o with
    | error e => simp at h
    | ok res =>
      cases res with
      | other =>
        simp only [] at h
        rw [if_neg (by simp)] at h
        injection h with h
        subst h
        constructor
        · rintro ⟨hna, -⟩
          simp at hna
        · intro _
          exact ⟨rfl, rfl, rfl, rfl, rfl⟩
      | decision d =>
        simp only [] at h
        by_cases hadv : d.next_agent = "query_refiner" ∧ s.phase_complete = true
        · rw [if_pos hadv] at h
          injection h with h
          subst h
          constructor
          · intro _
            exact ⟨rfl, rfl, rfl, rfl, rfl⟩
          · intro hn
            exact absurd ⟨by simp [hadv.1], hadv.2⟩ hn
        · rw [if_neg hadv] at h
          injection h with h
          subst h
          constructor
          · rintro ⟨hna, hpc⟩
            simp only [Option.some.injEq] at hna
            exact absurd ⟨hna, hpc⟩ hadv
          · intro _
            exact ⟨rfl, rfl, rfl, rfl, rfl⟩

/-- C1 witness: phase 2 complete, delegate routes to the query refiner
— the returned patch advances to phase 3 with all flags cleared. -/
theorem supervisor_phase_advance_iff_c1_witness :
    c1Result.patch.current_phase = some 3 ∧
    c1Result.patch.phase_complete = some false ∧
    c1Result.patch.current_phase_searched = some false ∧
    c1Result.patch.current_phase_verified = some false ∧
    c1Result.patch.current_phase_risk_assessed = some false := by
  have h := supervisor_phase_advance_iff_c1 c1State []
    (.ok (.decision ⟨"query_refiner", "", ""⟩)) c1Result rfl
  exact h.1 ⟨rfl, rfl⟩

/-! ## C7 — verifier degradation when no submission is recorded -/

/-- C7 counterexample: the delta holds one fact dict without a "fact"
key; the main run records no submission and neither does the forced
follow-up round. The verifier returns normally with the cursor advanced
and the flag set, but `unverified_claims` is empty — the final fallback
filters on `f.get("fact")` truthiness (verifier.py line 222), so the
fact is silently lost rather than conservatively classified, refuting
the claim that no fact in the delta is ever lost. -/
theorem verifier_lost_empty_fact_c7_counterexample :
    VerifierAgent.run c7State (.finished []) (.ok []) = .ok c7Patch ∧
    (c7State.extracted_facts.drop c7State.facts_verified_count).length = 1 ∧
    c7Patch.unverified_claims = some [] ∧
    c7Patch.facts_verified_count = some 1 ∧
    c7Patch.current_phase_verified = some true :=
  ⟨rfl, rfl, rfl, rfl, rfl⟩

/-- C7 (amended): with a non-empty delta, (1) when the recursion budget
is exhausted, the verifier does not raise and classifies every delta
fact as an unverified claim (a missing fact text becomes the empty
string), advancing the cursor by exactly the delta size and setting the
phase-verified flag; (2) when no submission is recorded even after the
forced follow-up round, the verifier does not raise, advances the
cursor by exactly the delta size and sets the flag, but classifies as
unverified only the delta facts with non-empty fact text — facts with
empty or missing text are dropped. -/
theorem verifier_degrades_gracefully_c7 :
    ∀ (s : RState) (messages messages₂ : List VMessage) (forced : Except PyExc (List VMessage)),
      s.extracted_facts.drop s.facts_verified_count ≠ [] →
      (VerifierAgent.run s .recursionLimit forced = .ok {
        verified_facts := some []
        unverified_claims := some ((s.extracted_facts.drop s.facts_verified_count).map
          (fun f => f.fact.getD ""))
        contradictions := some []
        facts_verified_count := some (s.facts_verified_count +
          (s.extracted_facts.drop s.facts_verified_count).length)
        current_phase_verified := some true
        audit_log := some [⟨"verifier", "active_verification",
          "Stopped at recursion limit; no verification submitted"⟩] }) ∧
      ((extract_verification messages).verified_facts = [] →
       (extract_verification messages).unverified_claims = [] →
       (extract_verification messages₂).verified_facts = [] →
       (extract_verification messages₂).unverified_claims = [] →
        VerifierAgent.run s (.finished messages) (.ok messages₂) = .ok {
          verified_facts := some (extract_verification messages₂).verified_facts
          unverified_claims := some ((s.extracted_facts.drop s.facts_verified_count).filterMap
            (fun f => match f.fact with
              | some t => if t = "" then none else some t
              | none => none))
          contradictions := some (extract_verification messages₂).contradictions
          facts_verified_count := some (s.facts_verified_count +
            (s.extracted_facts.drop s.facts_verified_count).length)
          current_phase_verified := some true
          audit_log := some [⟨"verifier", "active_verification",
            toString (extract_verification messages₂).verified_facts.length
              ++ " verified, "
              ++ toString ((s.extracted_facts.drop s.facts_verified_count).filterMap
                (fun f => match f.fact with
                  | some t => if t = "" then none else some t
                  | none => none)).length
              ++ " unverified, "
              ++ toString (extract_verification messages₂).contradictions.length
              ++ " contradictions"⟩] }) := by
  intro s messages messages₂ forced hne
  constructor
  · simp only [VerifierAgent.run]
    rw [if_neg hne]
  · intro h1 h2 h3 h4
    simp only [VerifierAgent.run]
    rw [if_neg hne]
    rw [if_pos (⟨h1, h2⟩ : _ ∧ _)]
    dsimp only
    rw [if_pos (⟨h3, h4⟩ : _ ∧ _)]

/-- C7 witness: one fact with non-empty text — in both degraded paths
it is classified unverified, the cursor advances by one, and the flag
is set. -/
theorem verifier_degrades_gracefully_c7_witness :
    VerifierAgent.run c7wState .recursionLimit (.ok []) = .ok {
      verified_facts := some []
      unverified_claims := some ["claim-x"]
      contradictions := some []
      facts_verified_count := some 1
      current_phase_verified := some true
      audit_log := some [⟨"verifier", "active_verification",
        "Stopped at recursion limit; no verification submitted"⟩] } ∧
    VerifierAgent.run c7wState (.finished []) (.ok []) = .ok {
      verified_facts := some []
      unverified_claims := some ["claim-x"]
      contradictions := some []
      facts_verified_count := some 1
      current_phase_verified := some true
      audit_log := some [⟨"verifier", "active_verification",
        "0 verified, 1 unverified, 0 contradictions"⟩] } := by
  have h := verifier_degrades_gracefully_c7 c7wState [] [] (.ok []) (by decide)
  exact ⟨h.1, h.2 rfl rfl rfl rfl⟩

/-! ## Graph-builder loop characterizations -/

theorem graphEntity_foldl_created (ok : Nat → Bool) :
    ∀ (l : List (Nat × Entity)) (acc : List String × List String),
      (l.foldl (graphEntityStep ok) acc).1 = acc.1 ++ l.filterMap (fun ie =>
        if pyLower ie.2.etype ∈ recognizedEntityTypes ∧ ie.2.name ≠ "" ∧ ok ie.1 = true
        then some (pyLower ie.2.etype ++ ":" ++ ie.2.name) else none) := by
  intro l
  induction l with
  | nil => intro acc; simp
  | cons a rest ih =>
    intro acc
    rw [List.foldl_cons, List.filterMap_cons, ih]
    by_cases h1 : pyLower a.2.etype ∈ recognizedEntityTypes
    · by_cases h2 : a.2.name = ""
      · simp [graphEntityStep, h1, h2]
      · by_cases h3 : ok a.1 = true
        · simp [graphEntityStep, h1, h2, h3]
        · simp [graphEntityStep, h1, h2, h3]
    · simp [graphEntityStep, h1]

theorem graphEntity_foldl_log (ok : Nat → Bool) :
    ∀ (l : List (Nat × Entity)) (acc : List String × List String),
      (l.foldl (graphEntityStep ok) acc).2 = acc.2 ++ l.filterMap (fun ie =>
        if pyLower ie.2.etype ∉ recognizedEntityTypes then
          some ("unknown_entity_type:" ++ pyLower ie.2.etype)
        else if ie.2.name = "" then none
        else if ok ie.1 = true then none
        else some ("graph_node_create_failed:" ++ ie.2.name)) := by
  intro l
  induction l with
  | nil => intro acc; simp
  | cons a rest ih =>
    intro acc
    rw [List.foldl_cons, List.filterMap_cons, ih]
    by_cases h1 : pyLower a.2.etype ∈ recognizedEntityTypes
    · by_cases h2 : a.2.name = ""
      · simp [graphEntityStep, h1, h2]
      · by_cases h3 : ok a.1 = true
        · simp [graphEntityStep, h1, h2, h3]
        · simp [graphEntityStep, h1, h2, h3]
    · simp [graphEntityStep, h1]

theorem graphRel_foldl_created (ok : Nat → Bool) :
    ∀ (l : List (Nat × Rel)) (acc : List String × List String),
      (l.foldl (graphRelStep ok) acc).1 = acc.1 ++ l.filterMap (fun ir =>
        if ir.2.source_entity = "" ∨ ir.2.target_entity = "" then none
        else if ok ir.1 = true then
          some (ir.2.source_entity ++ "-["
            ++ pyUpper (ir.2.relationship_type.getD "ASSOCIATED_WITH")
            ++ "]->" ++ ir.2.target_entity)
        else none) := by
  intro l
  induction l with
  | nil => intro acc; simp
  | cons a rest ih =>
    intro acc
    rw [List.foldl_cons, List.filterMap_cons, ih]
    by_cases h1 : a.2.source_entity = "" ∨ a.2.target_entity = ""
    · simp [graphRelStep, h1]
    · by_cases h2 : ok a.1 = true
      · simp [graphRelStep, h1, h2]
      · simp [graphRelStep, h1, h2]

theorem graphRel_foldl_log (ok : Nat → Bool) :
    ∀ (l : List (Nat × Rel)) (acc : List String × List String),
      (l.foldl (graphRelStep ok) acc).2 = acc.2 ++ l.flatMap (fun ir =>
        if ir.2.source_entity = "" ∨ ir.2.target_entity = "" then []
        else
          (if pyUpper (ir.2.relationship_type.getD "ASSOCIATED_WITH") ∈ typedRelationshipTypes
           then []
           else ["unknown_rel_type_fallback:"
             ++ pyUpper (ir.2.relationship_type.getD "ASSOCIATED_WITH")]) ++
          (if ok ir.1 = true then []
           else ["graph_rel_create_failed:"
             ++ ir.2.source_entity ++ "->" ++ ir.2.target_entity])) := by
  intro l
  induction l with
  | nil => intro acc; simp
  | cons a rest ih =>
    intro acc
    rw [List.foldl_cons, ih]
    by_cases h1 : a.2.source_entity = "" ∨ a.2.target_entity = ""
    · simp [graphRelStep, h1]
    · by_cases hw : pyUpper (a.2.relationship_type.getD "ASSOCIATED_WITH") ∈ typedRelationshipTypes
      · by_cases h2 : ok a.1 = true
        · simp [graphRelStep, h1, hw, h2]
        · simp [graphRelStep, h1, hw, h2]
      · by_cases h2 : ok a.1 = true
        · simp [graphRelStep, h1, hw, h2]
        · simp [graphRelStep, h1, hw, h2]

/-! ## Per-node patch-key lemmas -/

theorem planner_patch_keys (s : RState) (o : PlanInvokeRes) :
    (PlannerAgent.run s o).phase_complete = some false ∧
    (PlannerAgent.run s o).facts_verified_count = none ∧
    (PlannerAgent.run s o).risk_assessed_facts_count = none ∧
    (PlannerAgent.run s o).extracted_facts = none ∧
    (PlannerAgent.run s o).verified_facts = none :=
  ⟨rfl, rfl, rfl, rfl, rfl⟩

theorem query_refiner_patch_keys (s : RState) (o : QRInvokeRes) :
    (QueryRefinerAgent.run s o).phase_complete = none ∧
    (QueryRefinerAgent.run s o).facts_verified_count = none ∧
    (QueryRefinerAgent.run s o).risk_assessed_facts_count = none ∧
    (QueryRefinerAgent.run s o).extracted_facts = none ∧
    (QueryRefinerAgent.run s o).verified_facts = none :=
  ⟨rfl, rfl, rfl, rfl, rfl⟩

theorem search_node_patch_keys (s : RState) (m : List SAMessage) :
    (search_and_analyze_node s m).phase_complete = none ∧
    (search_and_analyze_node s m).facts_verified_count = none ∧
    (search_and_analyze_node s m).risk_assessed_facts_count = none ∧
    (search_and_analyze_node s m).verified_facts = none := by
  by_cases h : s.pending_queries = [] <;> simp [search_and_analyze_node, h]

theorem synthesizer_patch_keys (s : RState) (rep : String) :
    (synthesizer_node s rep).phase_complete = none ∧
    (synthesizer_node s rep).facts_verified_count = none ∧
    (synthesizer_node s rep).risk_assessed_facts_count = none ∧
    (synthesizer_node s rep).extracted_facts = none ∧
    (synthesizer_node s rep).verified_facts = none :=
  ⟨rfl, rfl, rfl, rfl, rfl⟩

theorem graph_builder_patch_keys (s : RState) (eok rok : Nat → Bool) :
    (graph_builder_node s eok rok).patch.phase_complete = some true ∧
    (graph_builder_node s eok rok).patch.facts_verified_count = none ∧
    (graph_builder_node s eok rok).patch.risk_assessed_facts_count = none ∧
    (graph_builder_node s eok rok).patch.extracted_facts = none ∧
    (graph_builder_node s eok rok).patch.verified_facts = none :=
  ⟨rfl, rfl, rfl, rfl, rfl⟩

theorem supervisor_run_keys :
    ∀ (s : RState) (cs : List String) (o : Except PyExc SupInvokeRes) (r : SupResult),
      supervisor_node s cs o = .ok r →
      r.patch.facts_verified_count = none ∧ r.patch.risk_assessed_facts_count = none ∧
      r.patch.extracted_facts = none ∧ r.patch.verified_facts = none ∧
      (r.patch.phase_complete = none ∨ r.patch.phase_complete = some false) := by
  intro s cs o r h
  unfold supervisor_node at h
  by_cases hc : s.research_id ≠ "" ∧ s.research_id ∈ cs
  · rw [if_pos hc] at h
    injection h with h
    subst h
    exact ⟨rfl, rfl, rfl, rfl, .inl rfl⟩
  · rw [if_neg hc] at h
    cases o with
    | error e => simp at h
    | ok res =>
      cases res with
      | other =>
        simp only [] at h
        rw [if_neg (by simp)] at h
        injection h with h
        subst h
        exact ⟨rfl, rfl, rfl, rfl, .inl rfl⟩
      | decision d =>
        simp only [] at h
        by_cases hadv : d.next_agent = "query_refiner" ∧ s.phase_complete = true
        · rw [if_pos hadv] at h
          injection h with h
          subst h
          exact ⟨rfl, rfl, rfl, rfl, .inr rfl⟩
        · rw [if_neg hadv] at h
          injection h with h
          subst h
          exact ⟨rfl, rfl, rfl, rfl, .inl rfl⟩

theorem verifier_run_cases :
    ∀ (s : RState) (main : VerifierMainOutcome) (forced : Except PyExc (List VMessage))
      (p : Patch),
      VerifierAgent.run s main forced = .ok p →
      p.extracted_facts = none ∧ p.risk_assessed_facts_count = none ∧
      p.phase_complete = none ∧
      ((s.extracted_facts.drop s.facts_verified_count = [] ∧ p.facts_verified_count = none ∧
          p.verified_facts = none) ∨
       (s.extracted_facts.drop s.facts_verified_count ≠ [] ∧ p.facts_verified_count =
          some (s.facts_verified_count + (s.extracted_facts.drop s.facts_verified_count).length))) := by
  intro s main forced p h
  by_cases hd : s.extracted_facts.drop s.facts_verified_count = []
  · simp only [VerifierAgent.run] at h
    rw [if_pos hd] at h
    injection h with h
    subst h
    exact ⟨rfl, rfl, rfl, .inl ⟨hd, rfl, rfl⟩⟩
  · simp only [VerifierAgent.run] at h
    rw [if_neg hd] at h
    cases main with
    | recursionLimit =>
      injection h with h
      subst h
      exact ⟨rfl, rfl, rfl, .inr ⟨hd, rfl⟩⟩
    | finished messages =>
      dsimp only at h
      by_cases hf : (extract_verification messages).verified_facts = [] ∧
          (extract_verification messages).unverified_claims = []
      · rw [if_pos hf] at h
        cases forced with
        | error e => simp at h
        | ok messages₂ =>
          injection h with h
          subst h
          exact ⟨rfl, rfl, rfl, .inr ⟨hd, rfl⟩⟩
      · rw [if_neg hf] at h
        injection h with h
        subst h
        exact ⟨rfl, rfl, rfl, .inr ⟨hd, rfl⟩⟩

theorem risk_run_cases :
    ∀ (s : RState) (o : Except PyExc RiskInvokeRes) (p : Patch),
      risk_assessor_node s o = .ok p →
      p.extracted_facts = none ∧ p.verified_facts = none ∧ p.facts_verified_count = none ∧
      p.phase_complete = none ∧
      ((riskDelta s = [] ∧ p.risk_assessed_facts_count = none) ∨
       (riskDelta s ≠ [] ∧ p.risk_assessed_facts_count =
          some (s.risk_assessed_facts_count + (riskDelta s).length))) := by
  intro s o p h
  by_cases hd : riskDelta s = []
  · simp only [risk_assessor_node] at h
    rw [if_pos hd] at h
    injection h with h
    subst h
    exact ⟨rfl, rfl, rfl, rfl, .inl ⟨hd, rfl⟩⟩
  · simp only [risk_assessor_node] at h
    rw [if_neg hd] at h
    cases o with
    | error e => simp at h
    | ok r =>
      injection h with h
      subst h
      exact ⟨rfl, rfl, rfl, rfl, .inr ⟨hd, rfl⟩⟩

/-! ## C9 — graph builder tolerance and sole phase completion -/

/-- C9: the graph builder skips every entity of unrecognized type with
a logged warning while still upserting recognized, named entities whose
write succeeds; individual node and edge write failures are logged
while the loops continue (the function never raises — it is total); the
returned patch unconditionally sets `phase_complete` true; and the
graph builder is the sole step whose patch ever declares
`phase_complete` true. -/
theorem graph_builder_skips_and_completes_c9 :
    ∀ (s : RState) (entityWriteOk relWriteOk : Nat → Bool),
      (graph_builder_node s entityWriteOk relWriteOk).patch.phase_complete = some true ∧
      (∀ ie ∈ s.entities.enum, pyLower ie.2.etype ∉ recognizedEntityTypes →
        ("unknown_entity_type:" ++ pyLower ie.2.etype)
          ∈ (graph_builder_node s entityWriteOk relWriteOk).log) ∧
      (∀ ie ∈ s.entities.enum, pyLower ie.2.etype ∈ recognizedEntityTypes →
        ie.2.name ≠ "" → entityWriteOk ie.1 = true →
        (pyLower ie.2.etype ++ ":" ++ ie.2.name)
          ∈ ((graph_builder_node s entityWriteOk relWriteOk).patch.graph_nodes_created.getD [])) ∧
      (∀ ie ∈ s.entities.enum, pyLower ie.2.etype ∈ recognizedEntityTypes →
        ie.2.name ≠ "" → entityWriteOk ie.1 = false →
        ("graph_node_create_failed:" ++ ie.2.name)
          ∈ (graph_builder_node s entityWriteOk relWriteOk).log) ∧
      (∀ ir ∈ s.relationships.enum, ir.2.source_entity ≠ "" → ir.2.target_entity ≠ "" →
        relWriteOk ir.1 = false →
        ("graph_rel_create_failed:" ++ ir.2.source_entity ++ "->" ++ ir.2.target_entity)
          ∈ (graph_builder_node s entityWriteOk relWriteOk).log) ∧
      (∀ (t : RState) (o : PlanInvokeRes), (PlannerAgent.run t o).phase_complete = some false) ∧
      (∀ (t : RState) (o : QRInvokeRes), (QueryRefinerAgent.run t o).phase_complete = none) ∧
      (∀ (t : RState) (m : List SAMessage), (search_and_analyze_node t m).phase_complete = none) ∧
      (∀ (t : RState) (m : VerifierMainOutcome) (f : Except PyExc (List VMessage)) (p : Patch),
        VerifierAgent.run t m f = .ok p → p.phase_complete = none) ∧
      (∀ (t : RState) (o : Except PyExc RiskInvokeRes) (p : Patch),
        risk_assessor_node t o = .ok p → p.phase_complete = none) ∧
      (∀ (t : RState) (rep : String), (synthesizer_node t rep).phase_complete = none) ∧
      (∀ (t : RState) (cs : List String) (o : Except PyExc SupInvokeRes) (r : SupResult),
        supervisor_node t cs o = .ok r → r.patch.phase_complete ≠ some true) := by
  intro s eok rok
  refine ⟨rfl, ?_, ?_, ?_, ?_, ?_, ?_, ?_, ?_, ?_, ?_, ?_⟩
  · intro ie hie hun
    simp only [graph_builder_node, graphEntity_foldl_log, graphRel_foldl_log,
      List.nil_append]
    refine List.mem_append_left _ (List.mem_filterMap.mpr ⟨ie, hie, ?_⟩)
    simp [hun]
  · intro ie hie hrec hname hok
    simp only [graph_builder_node, graphEntity_foldl_created, List.nil_append,
      Option.getD_some]
    exact List.mem_filterMap.mpr ⟨ie, hie, by simp [hrec, hname, hok]⟩
  · intro ie hie hrec hname hok
    simp only [graph_builder_node, graphEntity_foldl_log, graphRel_foldl_log,
      List.nil_append]
    refine List.mem_append_left _ (List.mem_filterMap.mpr ⟨ie, hie, ?_⟩)
    simp [hrec, hname, hok]
  · intro ir hir hsrc htgt hok
    simp only [graph_builder_node, graphEntity_foldl_log, graphRel_foldl_log,
      List.nil_append]
    refine List.mem_append_right _ (List.mem_flatMap.mpr ⟨ir, hir, ?_⟩)
    rw [if_neg (by simp [hsrc, htgt])]
    exact List.mem_append.mpr (Or.inr (by simp [hok]))
  · intro t o
    exact (planner_patch_keys t o).1
  · intro t o
    exact (query_refiner_patch_keys t o).1
  · intro t m
    exact (search_node_patch_keys t m).1
  · intro t m f p h
    exact (verifier_run_cases t m f p h).2.2.1
  · intro t o p h
    exact (risk_run_cases t o p h).2.2.2.1
  · intro t rep
    exact (synthesizer_patch_keys t rep).1
  · intro t cs o r h
    rcases (supervisor_run_keys t cs o r h).2.2.2.2 with hn | hf
    · simp [hn]
    · simp [hf]

/-- C9 witness: one "spaceship" entity and one person, all writes
succeeding — the patch completes the phase, the spaceship is skipped
with a warning, and the person is upserted. -/
theorem graph_builder_skips_and_completes_c9_witness :
    (graph_builder_node c9State (fun _ => true) (fun _ => true)).patch.phase_complete =
      some true ∧
    "unknown_entity_type:spaceship"
      ∈ (graph_builder_node c9State (fun _ => true) (fun _ => true)).log ∧
    "person:Alice"
      ∈ ((graph_builder_node c9State (fun _ => true) (fun _ => true)).patch.graph_nodes_created.getD []) := by
  have h := graph_builder_skips_and_completes_c9 c9State (fun _ => true) (fun _ => true)
  refine ⟨h.1, ?_, ?_⟩
  · exact h.2.1 (0, ⟨"Ship1", "spaceship"⟩) (by decide) (by decide)
  · exact h.2.2.1 (1, ⟨"Alice", "person"⟩) (by decide) (by decide) (by decide) rfl

/-! ## Cursor-invariant machinery -/

theorem riskDelta_advance_le (s : RState)
    (h2 : s.risk_assessed_facts_count ≤ max s.verified_facts.length s.facts_verified_count) :
    s.risk_assessed_facts_count + (riskDelta s).length ≤
      max s.verified_facts.length s.facts_verified_count := by
  have hv : s.verified_facts.length ≤ max s.verified_facts.length s.facts_verified_count :=
    le_max_left _ _
  have hf : s.facts_verified_count ≤ max s.verified_facts.length s.facts_verified_count :=
    le_max_right _ _
  by_cases hd : s.verified_facts.drop s.risk_assessed_facts_count = []
  · by_cases hc : s.facts_verified_count > s.risk_assessed_facts_count
    · have hlen : (riskDelta s).length =
          min s.facts_verified_count s.extracted_facts.length - s.risk_assessed_facts_count := by
        simp [riskDelta, hd, hc, List.length_drop, List.length_take]
      rw [hlen]
      have hmin : min s.facts_verified_count s.extracted_facts.length ≤ s.facts_verified_count :=
        min_le_left _ _
      omega
    · have hlen : (riskDelta s).length = 0 := by
        simp [riskDelta, hd, hc]
      rw [hlen]
      omega
  · have hlt : s.risk_assessed_facts_count < s.verified_facts.length := by
      by_contra hge
      exact hd (List.drop_eq_nil_of_le (by omega))
    have hlen : (riskDelta s).length =
        s.verified_facts.length - s.risk_assessed_facts_count := by
      simp [riskDelta, hd, List.length_drop]
    rw [hlen]
    omega

theorem step_preserves_cursorInv : ∀ s t, Step s t → CursorInv s → CursorInv t := by
  intro s t hst hinv
  obtain ⟨h1, h2⟩ := hinv
  cases hst with
  | supervisor cs o r h =>
    obtain ⟨k1, k2, k3, k4, -⟩ := supervisor_run_keys s cs o r h
    simp only [CursorInv, applyPatch, k1, k2, k3, k4, Option.getD_none, List.append_nil]
    exact ⟨h1, h2⟩
  | planner o hna =>
    have k := planner_patch_keys s o
    simp only [CursorInv, applyPatch, k.2.1, k.2.2.1, k.2.2.2.1, k.2.2.2.2,
      Option.getD_none, List.append_nil]
    exact ⟨h1, h2⟩
  | query_refiner o hna =>
    have k := query_refiner_patch_keys s o
    simp only [CursorInv, applyPatch, k.2.1, k.2.2.1, k.2.2.2.1, k.2.2.2.2,
      Option.getD_none, List.append_nil]
    exact ⟨h1, h2⟩
  | search_and_analyze m hna =>
    have k := search_node_patch_keys s m
    simp only [CursorInv, applyPatch, k.2.1, k.2.2.1, k.2.2.2,
      Option.getD_none, List.append_nil, List.length_append]
    exact ⟨le_trans h1 (Nat.le_add_right _ _), h2⟩
  | verifier main forced p hna hr =>
    obtain ⟨k1, k2, kp, kc⟩ := verifier_run_cases s main forced p hr
    cases kc with
    | inl ke =>
      simp only [CursorInv, applyPatch, k1, k2, ke.2.1, ke.2.2,
        Option.getD_none, List.append_nil]
      exact ⟨h1, h2⟩
    | inr ka =>
      constructor
      · simp only [applyPatch, k1, ka.2, Option.getD_none, Option.getD_some,
          List.append_nil, List.length_drop]
        omega
      · simp only [applyPatch, k2, ka.2, Option.getD_none, Option.getD_some,
          List.length_append, List.length_drop]
        refine le_trans h2 (max_le_max (Nat.le_add_right _ _) ?_)
        omega
  | risk_assessor o p hna hr =>
    obtain ⟨k1, k2, k3, kp, kc⟩ := risk_run_cases s o p hr
    cases kc with
    | inl ke =>
      simp only [CursorInv, applyPatch, k1, k2, k3, ke.2,
        Option.getD_none, List.append_nil]
      exact ⟨h1, h2⟩
    | inr ka =>
      constructor
      · simp only [applyPatch, k1, k3, Option.getD_none, List.append_nil]
        exact h1
      · simp only [applyPatch, k1, k2, k3, ka.2, Option.getD_none, Option.getD_some,
          List.append_nil]
        exact riskDelta_advance_le s h2
  | graph_builder eok rok hna =>
    have k := graph_builder_patch_keys s eok rok
    simp only [CursorInv, applyPatch, k.2.1, k.2.2.1, k.2.2.2.1, k.2.2.2.2,
      Option.getD_none, List.append_nil]
    exact ⟨h1, h2⟩
  | synthesizer rep hna =>
    have k := synthesizer_patch_keys s rep
    simp only [CursorInv, applyPatch, k.2.1, k.2.2.1, k.2.2.2.1, k.2.2.2.2,
      Option.getD_none, List.append_nil]
    exact ⟨h1, h2⟩

theorem step_cursor_mono : ∀ s t, Step s t →
    s.facts_verified_count ≤ t.facts_verified_count ∧
    s.risk_assessed_facts_count ≤ t.risk_assessed_facts_count := by
  intro s t hst
  cases hst with
  | supervisor cs o r h =>
    obtain ⟨k1, k2, -, -, -⟩ := supervisor_run_keys s cs o r h
    simp [applyPatch, k1, k2]
  | planner o hna =>
    have k := planner_patch_keys s o
    simp [applyPatch, k.2.1, k.2.2.1]
  | query_refiner o hna =>
    have k := query_refiner_patch_keys s o
    simp [applyPatch, k.2.1, k.2.2.1]
  | search_and_analyze m hna =>
    have k := search_node_patch_keys s m
    simp [applyPatch, k.2.1, k.2.2.1]
  | verifier main forced p hna hr =>
    obtain ⟨-, k2, -, kc⟩ := verifier_run_cases s main forced p hr
    cases kc with
    | inl ke => simp [applyPatch, k2, ke.2.1]
    | inr ka => simp [applyPatch, k2, ka.2]
  | risk_assessor o p hna hr =>
    obtain ⟨-, -, k3, -, kc⟩ := risk_run_cases s o p hr
    cases kc with
    | inl ke => simp [applyPatch, k3, ke.2]
    | inr ka => simp [applyPatch, k3, ka.2]
  | graph_builder eok rok hna =>
    have k := graph_builder_patch_keys s eok rok
    simp [applyPatch, k.2.1, k.2.2.1]
  | synthesizer rep hna =>
    have k := synthesizer_patch_keys s rep
    simp [applyPatch, k.2.1, k.2.2.1]

theorem reachable_cursorInv :
    ∀ (rid tn tc : String) (obj : List String) (mp : Nat) (s : RState),
      Reachable (initState rid tn tc obj mp) s → CursorInv s := by
  intro rid tn tc obj mp s h
  induction h with
  | refl => exact ⟨Nat.zero_le _, Nat.zero_le _⟩
  | tail h1 h2 ih => exact step_preserves_cursorInv _ _ h2 ih

/-! ## C2 — delta-cursor invariants -/

/-- C2 counterexample: a reachable run in which the verifier hits its
recursion limit (populating no verified facts but advancing
`facts_verified_count`), after which the risk assessor falls back to
slicing `extracted_facts` and advances `risk_assessed_facts_count` to
1 while `verified_facts` is still empty — so the claimed bound
"risk_assessed_facts_count never exceeds the length of verified_facts"
fails on a reachable state. -/
theorem risk_cursor_exceeds_verified_c2_counterexample :
    ∃ s, Reachable (initState "run-c2" "Target" "" [] 3) s ∧
      s.verified_facts.length < s.risk_assessed_facts_count := by
  have hchain := ((((((((Relation.ReflTransGen.refl
      (r := Step) (a := initState "run-c2" "Target" "" [] 3)).tail
      (Step.supervisor _ [] (.ok (.decision ⟨"query_refiner", "", ""⟩)) _ rfl)).tail
      (Step.query_refiner _ (.queries ["q1"]) rfl)).tail
      (Step.supervisor _ [] (.ok (.decision ⟨"search_and_analyze", "", ""⟩)) _ rfl)).tail
      (Step.search_and_analyze _ c2saMessages rfl)).tail
      (Step.supervisor _ [] (.ok (.decision ⟨"verifier", "", ""⟩)) _ rfl)).tail
      (Step.verifier _ .recursionLimit (.ok []) _ rfl rfl)).tail
      (Step.supervisor _ [] (.ok (.decision ⟨"risk_assessor", "", ""⟩)) _ rfl)).tail
      (Step.risk_assessor _ (.ok (.assessment [])) _ rfl rfl)
  exact ⟨_, hchain, by decide⟩

/-- C2 (amended): in every reachable state the two delta cursors are
monotonically non-decreasing across transitions, `facts_verified_count`
never exceeds the length of `extracted_facts`, and
`risk_assessed_facts_count` never exceeds the larger of the length of
`verified_facts` and `facts_verified_count` (the risk-assessor fallback
can push it past the verified-fact count, but no further); each
delta-aware step advances its cursor by exactly the number of items
presented to it that round, and omits the cursor key entirely on an
empty round. -/
theorem delta_cursor_invariant_c2 :
    (∀ (rid tn tc : String) (obj : List String) (mp : Nat) (s : RState),
      Reachable (initState rid tn tc obj mp) s → CursorInv s) ∧
    (∀ s t, Step s t →
      s.facts_verified_count ≤ t.facts_verified_count ∧
      s.risk_assessed_facts_count ≤ t.risk_assessed_facts_count) ∧
    (∀ (s : RState) (main : VerifierMainOutcome) (forced : Except PyExc (List VMessage))
      (p : Patch), VerifierAgent.run s main forced = .ok p →
      ((s.extracted_facts.drop s.facts_verified_count = [] ∧
          p.facts_verified_count = none) ∨
       (s.extracted_facts.drop s.facts_verified_count ≠ [] ∧
          p.facts_verified_count = some (s.facts_verified_count +
            (s.extracted_facts.drop s.facts_verified_count).length)))) ∧
    (∀ (s : RState) (o : Except PyExc RiskInvokeRes) (p : Patch),
      risk_assessor_node s o = .ok p →
      ((riskDelta s = [] ∧ p.risk_assessed_facts_count = none) ∨
       (riskDelta s ≠ [] ∧ p.risk_assessed_facts_count =
          some (s.risk_assessed_facts_count + (riskDelta s).length)))) := by
  refine ⟨reachable_cursorInv, step_cursor_mono, ?_, ?_⟩
  · intro s main forced p h
    rcases (verifier_run_cases s main forced p h).2.2.2 with ⟨hd, hn, -⟩ | hr
    · exact .inl ⟨hd, hn⟩
    · exact .inr hr
  · intro s o p h
    exact (risk_run_cases s o p h).2.2.2.2

/-- C2 witness: the invariant at the seeded initial state, and an exact
cursor advance by one fact on a concrete verifier round. -/
theorem delta_cursor_invariant_c2_witness :
    CursorInv (initState "run-w2" "T" "" [] 1) ∧
    c2wPatch.facts_verified_count = some 1 := by
  constructor
  · exact delta_cursor_invariant_c2.1 "run-w2" "T" "" [] 1 _ Relation.ReflTransGen.refl
  · rcases delta_cursor_invariant_c2.2.2.1 c2wState .recursionLimit (.ok []) c2wPatch rfl with
      ⟨hd, -⟩ | ⟨-, hv⟩
    · exact absurd hd (by decide)
    · exact hv

end Argus
